import Mathlib

/-!
Shallow embedding of `src/main.py` (M7X YouTube Downloader API).

The external extraction engine (`yt_dlp.YoutubeDL`) is modelled as a record of
oracles (`Engine`): `extract_info` is the metadata-only round trip and
`download` is the fetch/transcode call that writes the artifact to the
configured output path. Everything else — the format resolver, the filename
sanitisation, the HTTP handlers, the response generator and its interaction
with the on-disk transient file — is translated directly from the source.

Python dictionaries that the handlers build are modelled as Lean structures;
a dictionary key that may be absent becomes an `Option` field. Disk state is
modelled as the list of paths currently present.
-/

namespace M7X

/-- Metadata record returned by the extraction engine for one URL, holding the
fields the handlers read via `info.get(...)`. A missing key is `none`.
Python's `str.isalnum` and slicing operate on code points, as `Char` does. -/
structure Info where
  title : Option String := none
  thumbnail : Option String := none
  duration : Option Nat := none
  uploader : Option String := none
  view_count : Option Nat := none
  description : Option String := none
deriving DecidableEq, Repr

/-- Request body of `POST /download` (`class DownloadRequest`, src/main.py:21). -/
structure DownloadRequest where
  url : String
  format : String := "mp4"
  quality : Option String := some "720"
  start_time : Option String := none
  end_time : Option String := none
deriving DecidableEq, Repr

/-- Python `dict.get(k)` over an insertion-ordered association list. -/
def dictGet (m : List (String × String)) (k : String) : Option String :=
  match m with
  | [] => none
  | (k0, v) :: rest => if k = k0 then some v else dictGet rest k

/-- The `audio_formats` list of `get_format_opts` (src/main.py:34). -/
def audio_formats : List String := ["mp3", "aac", "flac", "wav", "ogg"]

/-- The `quality_map` dictionary of `get_format_opts` (src/main.py:47). -/
def quality_map : List (String × String) :=
  [("360", "bestvideo[height<=360]+bestaudio/best[height<=360]"),
   ("480", "bestvideo[height<=480]+bestaudio/best[height<=480]"),
   ("720", "bestvideo[height<=720]+bestaudio/best[height<=720]"),
   ("1080", "bestvideo[height<=1080]+bestaudio/best[height<=1080]"),
   ("1440", "bestvideo[height<=1440]+bestaudio/best[height<=1440]"),
   ("2160", "bestvideo[height<=2160]+bestaudio/best[height<=2160]")]

/-- One entry of a `postprocessors` list: its `key` plus the remaining
string-valued parameters, in source order. -/
structure Postprocessor where
  key : String
  params : List (String × String)
deriving DecidableEq, Repr

/-- The dictionary returned by `get_format_opts`: the `format` selector string
and the `postprocessors` list (an absent key is the empty list). -/
structure FormatOpts where
  format : String
  postprocessors : List Postprocessor := []
deriving DecidableEq, Repr

/-- Translation of `get_format_opts` (src/main.py:31-68). The video branch
computes `quality_map.get(quality, quality_map['720'])`; `'720'` is a key of
`quality_map`, so the inner `getD ""` default is dead code. -/
def get_format_opts (format quality : String) : FormatOpts :=
  if format ∈ audio_formats then
    { format := "bestaudio/best",
      postprocessors := [{ key := "FFmpegExtractAudio",
                           params := [("preferredcodec", format),
                                      ("preferredquality", "320")] }] }
  else
    let format_string := (dictGet quality_map quality).getD ((dictGet quality_map "720").getD "")
    if format ≠ "mp4" then
      { format := format_string,
        postprocessors := [{ key := "FFmpegVideoConvertor",
                             params := [("preferedformat", format)] }] }
    else
      { format := format_string }

/-- The `content_types` dictionary of the download handler (src/main.py:173). -/
def content_types : List (String × String) :=
  [("mp4", "video/mp4"),
   ("webm", "video/webm"),
   ("mkv", "video/x-matroska"),
   ("avi", "video/x-msvideo"),
   ("mp3", "audio/mpeg"),
   ("aac", "audio/aac"),
   ("flac", "audio/flac"),
   ("wav", "audio/wav"),
   ("ogg", "audio/ogg")]

/-- Translation of `content_types.get(request.format, 'application/octet-stream')`
(src/main.py:185). -/
def contentType (format : String) : String :=
  (dictGet content_types format).getD "application/octet-stream"

/-- Characters kept by the filename filter (src/main.py:139):
`c.isalnum() or c in (' ', '-', '_')`. Python's `isalnum` is Unicode-aware; we
model its ASCII fragment, which covers every character the spec mentions. -/
def keepChar (c : Char) : Bool :=
  c.isAlphanum || c = ' ' || c = '-' || c = '_'

/-- Python `str.rstrip()`: drop trailing whitespace. -/
def rstrip (cs : List Char) : List Char :=
  (cs.reverse.dropWhile Char.isWhitespace).reverse

/-- Translation of
`"".join(c for c in title if c.isalnum() or c in (' ', '-', '_')).rstrip()`
(src/main.py:139). -/
def sanitize (title : String) : String :=
  String.mk (rstrip (title.data.filter keepChar))

/-- The title component of the download filename: `info.get('title', 'video')`
(src/main.py:137) followed by `sanitize`. -/
def title_component (title : Option String) : String :=
  sanitize (title.getD "video")

/-- Python string slicing `s[:n]`, by code points. -/
def pyTake (s : String) (n : Nat) : String :=
  String.mk (s.data.take n)

/-- The `ydl_opts` dictionary built by the download handler: the merged
`format_opts` (src/main.py:115-120) plus the ffmpeg `postprocessor_args`
(empty list when the key is absent). The constant `quiet`/`no_warnings` flags
carry no information and are omitted. -/
structure YdlOpts where
  format_opts : FormatOpts
  postprocessor_args : List String := []
deriving DecidableEq, Repr

/-- Trim options appended by the download handler (src/main.py:123-132):
if either bound is present, `-ss start` and/or `-to end` in that order. -/
def build_postprocessor_args (req : DownloadRequest) : List String :=
  if req.start_time.isSome || req.end_time.isSome then
    (match req.start_time with | some s => ["-ss", s] | none => []) ++
    (match req.end_time with | some e => ["-to", e] | none => [])
  else []

/-- Interface of the extraction engine (`yt_dlp.YoutubeDL`): `extract_info`
with `download=False` yields metadata or raises; `download` performs the
fetch and any transcode postprocessing, writing the finished artifact (its
bytes are the returned list) to the configured output path, or raises. -/
structure Engine where
  extract_info : String → Except String Info
  download : YdlOpts → String → Except String (List Nat)

/-- An `HTTPException(status_code=..., detail=...)` raised by a handler. -/
structure HttpError where
  status : Nat
  detail : String
deriving DecidableEq, Repr

/-- One entry of the fixed advisory `formats` list in `/info` output. -/
structure FormatEntry where
  quality : String
  ext : String
deriving DecidableEq, Repr

/-- The `data` object of a successful `/info` response (src/main.py:88-101). -/
structure InfoData where
  title : Option String
  thumbnail : Option String
  duration : Option Nat
  channel : Option String
  view_count : Option Nat
  description : String
  formats : List FormatEntry
deriving DecidableEq, Repr

/-- A successful `/info` response body. -/
structure InfoResponse where
  success : Bool
  data : InfoData
deriving DecidableEq, Repr

/-- Translation of the `/info` handler `get_video_info` (src/main.py:74-104):
any exception from the body is mapped to HTTP 400 with `str(e)` as detail. -/
def get_video_info (eng : Engine) (url : String) : Except HttpError InfoResponse :=
  match eng.extract_info url with
  | .error e => .error { status := 400, detail := e }
  | .ok info =>
      .ok { success := true,
            data := { title := info.title,
                      thumbnail := info.thumbnail,
                      duration := info.duration,
                      channel := info.uploader,
                      view_count := info.view_count,
                      description := pyTake (info.description.getD "") 500,
                      formats := [{ quality := "360p", ext := "mp4" },
                                  { quality := "480p", ext := "mp4" },
                                  { quality := "720p", ext := "mp4" },
                                  { quality := "1080p", ext := "mp4" }] } }

/-- The `data` subset reported per URL by `/batch-info` (src/main.py:212-216). -/
structure BatchData where
  title : Option String
  thumbnail : Option String
  duration : Option Nat
deriving DecidableEq, Repr

/-- One element of the `results` list of `/batch-info`: either a success entry
with `data` or a failure entry with `error` (src/main.py:209-223). -/
structure BatchEntry where
  url : String
  success : Bool
  data : Option BatchData
  error : Option String
deriving DecidableEq, Repr

/-- One iteration of the `/batch-info` loop body: the per-URL try/except of
src/main.py:205-223. -/
def batch_entry (eng : Engine) (url : String) : BatchEntry :=
  match eng.extract_info url with
  | .ok info =>
      { url := url, success := true,
        data := some { title := info.title, thumbnail := info.thumbnail,
                       duration := info.duration },
        error := none }
  | .error e =>
      { url := url, success := false, data := none, error := some e }

/-- Translation of the `/batch-info` handler `get_batch_info`
(src/main.py:200-225): the `results` list accumulated over the input URLs. -/
def get_batch_info (eng : Engine) : List String → List BatchEntry
  | [] => []
  | url :: rest => batch_entry eng url :: get_batch_info eng rest

/-- Python `request.quality or "720"` (src/main.py:113): `None` and the empty
string are falsy. -/
def pyOr720 (q : Option String) : String :=
  match q with
  | none => "720"
  | some s => if s = "" then "720" else s

/-- The `StreamingResponse` value built by the download handler: media type,
`Content-Disposition` filename, and the `ydl_opts` captured by the (not yet
run) `generate` closure. -/
structure StreamingResp where
  media_type : String
  filename : String
  opts : YdlOpts
deriving DecidableEq, Repr

/-- Translation of the `/download` handler body `download_video`
(src/main.py:106-198) up to returning the `StreamingResponse`. The metadata
round trip (src/main.py:135-139) happens here, synchronously; the `generate`
closure (and with it the temporary file) runs only when the response body is
consumed — see `run_generate`. Any exception in this body is mapped to
HTTP 500 with `str(e)` as detail. -/
def download_video (eng : Engine) (req : DownloadRequest) : Except HttpError StreamingResp :=
  let format_opts := get_format_opts req.format (pyOr720 req.quality)
  let opts : YdlOpts := { format_opts := format_opts,
                          postprocessor_args := build_postprocessor_args req }
  match eng.extract_info req.url with
  | .error e => .error { status := 500, detail := e }
  | .ok info =>
      let safe_title := title_component info.title
      .ok { media_type := contentType req.format,
            filename := safe_title ++ "." ++ req.format,
            opts := opts }

/-- The fixed read size of the streaming loop: `f.read(1024 * 1024)`. -/
def chunkSize : Nat := 1024 * 1024

/-- The read loop `while chunk := f.read(1024 * 1024): yield chunk` over a
file's bytes, with an explicit iteration budget so that the recursion is
structural: each iteration on a nonempty rest consumes at least one byte
(`chunkSize ≥ 1`), so a budget of the file length never runs out. -/
def chunkListAux : Nat → List Nat → List (List Nat)
  | _, [] => []
  | 0, _ => []
  | fuel + 1, l => l.take chunkSize :: chunkListAux fuel (l.drop chunkSize)

/-- The sequence of chunks produced by the streaming read loop over a file's
bytes (src/main.py:162-164). -/
def chunkList (l : List Nat) : List (List Nat) :=
  chunkListAux l.length l

/-- How the consumer of the response body behaves: read every chunk, or close
the stream after `k` chunks (a client disconnect). -/
inductive Consumer
  | readAll
  | stopAfter (k : Nat)
deriving DecidableEq, Repr

/-- How one run of the `generate` generator ends. -/
inductive GenOutcome
  | completed (chunks : List (List Nat))
  | failed (err : String)
  | closed (read : Nat)
deriving DecidableEq, Repr

/-- Translation of the `generate` generator (src/main.py:144-170), run against
a consumer, with the disk modelled as the list of paths present.
`tempfile.NamedTemporaryFile(delete=False, suffix=...)` creates the transient
file; then `ydl.download([url])` runs with `outtmpl = tmp_path`. If it raises,
`except Exception as e: raise e` re-raises without unlinking. On success the
read loop yields the chunks; `os.unlink(tmp_path)` runs only after the loop
finishes. If the consumer closes the generator mid-stream, `GeneratorExit` is
raised at the `yield` — it is not an `Exception`, so the except clause does
not run and the unlink below the loop is never reached. -/
def run_generate (eng : Engine) (opts : YdlOpts) (url tmp_path : String)
    (consumer : Consumer) (disk : List String) : List String × GenOutcome :=
  let disk1 := tmp_path :: disk
  match eng.download opts url with
  | .error e => (disk1, .failed e)
  | .ok content =>
      let cs := chunkList content
      match consumer with
      | .readAll => (disk1.erase tmp_path, .completed cs)
      | .stopAfter k =>
          if k < cs.length then (disk1, .closed k)
          else (disk1.erase tmp_path, .completed cs)

/-- One full `/download` request lifecycle: run the handler body; when it
returns a `StreamingResponse`, run its `generate` body against the consumer.
`tmp_path` is the unique name `tempfile` would allocate for this invocation. -/
def handle_download (eng : Engine) (req : DownloadRequest) (tmp_path : String)
    (consumer : Consumer) (disk : List String) :
    List String × Except HttpError (StreamingResp × GenOutcome) :=
  match download_video eng req with
  | .error e => (disk, .error e)
  | .ok resp =>
      let r := run_generate eng resp.opts req.url tmp_path consumer disk
      (r.1, .ok (resp, r.2))

/-! Concrete engine instances used to instantiate the theorems below. -/

/-- An engine whose download step fails after metadata succeeded — an injected
transcode failure. -/
def transcodeFailEngine : Engine :=
  { extract_info := fun _ => .ok { title := some "My Clip" },
    download := fun _ _ => .error "ERROR: Postprocessing: ffmpeg exited with code 1" }

/-- An engine that delivers a one-chunk artifact, for exercising a consumer
that disconnects mid-stream. -/
def disconnectEngine : Engine :=
  { extract_info := fun _ => .ok { title := some "My Clip" },
    download := fun _ _ => .ok [1, 2, 3] }

/-- An engine that resolves every URL except the literal `"not-a-url"`. -/
def mixedEngine : Engine :=
  { extract_info := fun u =>
      if u = "not-a-url" then .error "ERROR: Unsupported URL"
      else .ok { title := some "T" },
    download := fun _ _ => .ok [] }

/-- An engine that reports an all-punctuation title. -/
def bangTitleEngine : Engine :=
  { extract_info := fun _ => .ok { title := some "!!!" },
    download := fun _ _ => .ok [] }

/-- An engine that fails metadata extraction on every URL. -/
def coreFailEngine : Engine :=
  { extract_info := fun _ => .error "ERROR: video unavailable",
    download := fun _ _ => .error "ERROR: video unavailable" }

/-- An engine whose metadata round trip succeeds but whose download/transcode
step raises — a core failure that is reached only inside `generate`, after
the streaming response has been returned. -/
def streamFailEngine : Engine :=
  { extract_info := fun _ => .ok { title := some "My Clip" },
    download := fun _ _ => .error "ERROR: ffmpeg exited with code 1" }

/-- A 1000-character description. -/
def longDesc : String := String.mk (List.replicate 1000 'a')

/-- Metadata carrying only the 1000-character description. -/
def longDescInfo : Info := { description := some longDesc }

/-- An engine that reports `longDescInfo` for every URL. -/
def descEngine : Engine :=
  { extract_info := fun _ => .ok longDescInfo,
    download := fun _ _ => .ok [] }

/-! Helper lemmas. -/

/-- The first element surviving `dropWhile p` does not satisfy `p`. -/
theorem dropWhile_head_not {α} (p : α → Bool) (l : List α) :
    ∀ c, (l.dropWhile p).head? = some c → p c = false := by
  induction l with
  | nil => intro c h; simp [List.dropWhile] at h
  | cons a l ih =>
    intro c h
    by_cases hp : p a
    · rw [List.dropWhile_cons_of_pos hp] at h
      exact ih c h
    · rw [List.dropWhile_cons_of_neg hp] at h
      simp at h
      subst h
      simpa using hp

/-- `rstrip` returns a sublist (a suffix, in fact) of its input. -/
theorem rstrip_sublist (cs : List Char) : List.Sublist (rstrip cs) cs := by
  have h : List.Sublist (cs.reverse.dropWhile Char.isWhitespace) cs.reverse :=
    List.dropWhile_sublist Char.isWhitespace
  simpa [rstrip] using h.reverse

/-- `rstrip` leaves no trailing whitespace. -/
theorem rstrip_last_not_ws (cs : List Char) (c : Char)
    (h : (rstrip cs).getLast? = some c) : c.isWhitespace = false := by
  rw [rstrip, List.getLast?_reverse] at h
  exact dropWhile_head_not _ _ c h

/-- A string's length is the length of its character list. -/
theorem string_length_data (s : String) : s.length = s.data.length := rfl

/-- Rebuilding a string from its character list is the identity. -/
theorem string_mk_data (s : String) : String.mk s.data = s := rfl

/-- The batch loop is the map of its body over the input list. -/
theorem get_batch_info_eq_map (eng : Engine) (urls : List String) :
    get_batch_info eng urls = urls.map (batch_entry eng) := by
  induction urls with
  | nil => rfl
  | cons u rest ih => simp [get_batch_info, ih]

/-- Every batch entry echoes the URL it was computed from. -/
theorem batch_entry_url (eng : Engine) (u : String) : (batch_entry eng u).url = u := by
  unfold batch_entry
  cases eng.extract_info u <;> rfl

/-! Claim theorems. -/

/-- Claim C4: the Format Resolver `get_format_opts` is total and deterministic
(it is a Lean function into `FormatOpts`, so it returns a directive set on
every pair of strings and never raises), and for every quality string outside
the six known labels, paired with a video format, the returned directives
coincide with those for quality `"720"`. -/
theorem C4_resolver_total_fallback (format quality : String)
    (hq : quality ∉ ["360", "480", "720", "1080", "1440", "2160"])
    (hv : format ∉ audio_formats) :
    get_format_opts format quality = get_format_opts format "720" := by
  simp only [List.mem_cons, List.not_mem_nil, or_false, not_or] at hq
  obtain ⟨h1, h2, h3, h4, h5, h6⟩ := hq
  simp [get_format_opts, hv, quality_map, dictGet, h1, h2, h3, h4, h5, h6]

/-- Witness for C4 at the concrete pair `("webm", "4k")`. -/
theorem C4_resolver_total_fallback_witness :
    get_format_opts "webm" "4k" = get_format_opts "webm" "720" :=
  C4_resolver_total_fallback "webm" "4k" (by decide) (by decide)

/-- Claim C5: for every audio format the quality parameter is never consulted:
any two quality strings produce identical directives. -/
theorem C5_audio_ignores_quality (f : String) (hf : f ∈ audio_formats)
    (q1 q2 : String) :
    get_format_opts f q1 = get_format_opts f q2 := by
  simp [get_format_opts, hf]

/-- Witness for C5: `resolve("mp3","360") == resolve("mp3","1080")`. -/
theorem C5_audio_ignores_quality_witness :
    get_format_opts "mp3" "360" = get_format_opts "mp3" "1080" :=
  C5_audio_ignores_quality "mp3" (by decide) "360" "1080"

/-- Claim C8: for every video (non-audio) format other than mp4 the resolved
directives carry exactly one container-conversion postprocessing step
targeting that format; for mp4 they carry no postprocessing step. -/
theorem C8_container_conversion (format quality : String)
    (hv : format ∉ audio_formats) :
    (format ≠ "mp4" →
      (get_format_opts format quality).postprocessors
        = [{ key := "FFmpegVideoConvertor",
             params := [("preferedformat", format)] }])
    ∧ (format = "mp4" → (get_format_opts format quality).postprocessors = []) := by
  constructor
  · intro hne
    simp [get_format_opts, hv, hne]
  · intro he
    subst he
    simp [get_format_opts, audio_formats]

/-- Witness for C8 at the concrete formats `"webm"` and `"mp4"`. -/
theorem C8_container_conversion_witness :
    (get_format_opts "webm" "720").postprocessors
      = [{ key := "FFmpegVideoConvertor", params := [("preferedformat", "webm")] }]
    ∧ (get_format_opts "mp4" "720").postprocessors = [] :=
  ⟨(C8_container_conversion "webm" "720" (by decide)).1 (by decide),
   (C8_container_conversion "mp4" "720" (by decide)).2 rfl⟩

/-- Claim C9: content-type derivation is a pure lookup over the static
nine-entry table: every entry of the table is returned for its format,
`contentType "mp3" = "audio/mpeg"`, and every format string outside the table
yields `"application/octet-stream"` (the request is not rejected: the lookup
is total). -/
theorem C9_content_type_lookup (f v g : String) :
    content_types.length = 9
    ∧ contentType "mp3" = "audio/mpeg"
    ∧ ((f, v) ∈ content_types → contentType f = v)
    ∧ (g ∉ content_types.map Prod.fst →
        contentType g = "application/octet-stream") := by
  refine ⟨rfl, by decide, ?_, ?_⟩
  · intro h
    simp [content_types] at h
    rcases h with h | h | h | h | h | h | h | h | h <;>
      · obtain ⟨rfl, rfl⟩ := h
        decide
  · intro h
    simp [content_types, not_or] at h
    obtain ⟨g1, g2, g3, g4, g5, g6, g7, g8, g9⟩ := h
    simp [contentType, content_types, dictGet, g1, g2, g3, g4, g5, g6, g7, g8, g9]

/-- Witness for C9 at the concrete formats `"wav"` and `"xyz"`. -/
theorem C9_content_type_lookup_witness :
    contentType "wav" = "audio/wav"
    ∧ contentType "xyz" = "application/octet-stream" :=
  ⟨(C9_content_type_lookup "wav" "audio/wav" "xyz").2.2.1 (by decide),
   (C9_content_type_lookup "wav" "audio/wav" "xyz").2.2.2 (by decide)⟩

/-- Claim C2: the `/batch-info` handler returns one entry per input URL, in
input order (`result[i].url = urls[i]`); each entry is computed from its own
URL alone (entry `i` equals `batch_entry eng urls[i]`, so one URL's failure
cannot affect any other entry); a successful URL yields a success entry with
the metadata subset, a failing URL yields a failure entry carrying the
triggering error's message. The batch itself never raises: `get_batch_info`
is a total Lean function. -/
theorem C2_batch_info (eng : Engine) (urls : List String) :
    (get_batch_info eng urls).length = urls.length
    ∧ (∀ i (hu : i < urls.length) (hr : i < (get_batch_info eng urls).length),
        ((get_batch_info eng urls).get ⟨i, hr⟩).url = urls.get ⟨i, hu⟩
        ∧ (get_batch_info eng urls).get ⟨i, hr⟩ = batch_entry eng (urls.get ⟨i, hu⟩))
    ∧ (∀ u info, eng.extract_info u = .ok info →
        batch_entry eng u
          = { url := u, success := true,
              data := some { title := info.title, thumbnail := info.thumbnail,
                             duration := info.duration },
              error := none })
    ∧ (∀ u e, eng.extract_info u = .error e →
        batch_entry eng u
          = { url := u, success := false, data := none, error := some e }) := by
  refine ⟨by simp [get_batch_info_eq_map], ?_, ?_, ?_⟩
  · intro i hu hr
    simp [get_batch_info_eq_map, batch_entry_url]
  · intro u info h
    simp [batch_entry, h]
  · intro u e h
    simp [batch_entry, h]

/-- Witness for C2 on the spec's example list with `mixedEngine`. -/
theorem C2_batch_info_witness :
    (get_batch_info mixedEngine ["https://valid/1", "not-a-url", "https://valid/2"]).length = 3
    ∧ batch_entry mixedEngine "not-a-url"
        = { url := "not-a-url", success := false, data := none,
            error := some "ERROR: Unsupported URL" }
    ∧ batch_entry mixedEngine "https://valid/1"
        = { url := "https://valid/1", success := true,
            data := some { title := some "T", thumbnail := none, duration := none },
            error := none } :=
  ⟨(C2_batch_info mixedEngine ["https://valid/1", "not-a-url", "https://valid/2"]).1.trans
      (by decide),
   (C2_batch_info mixedEngine []).2.2.2 "not-a-url" "ERROR: Unsupported URL" rfl,
   (C2_batch_info mixedEngine []).2.2.1 "https://valid/1" { title := some "T" } rfl⟩

/-- Claim C3 counterexample: the title `"!!!"` is empty after sanitization,
yet the title component of the filename is the empty string, not the literal
`"video"` — the `/download` filename becomes `".mp4"`. The `'video'` fallback
of src/main.py:137 fires only when the metadata has no title key at all. -/
theorem C3_counterexample :
    sanitize "!!!" = ""
    ∧ title_component (some "!!!") ≠ "video"
    ∧ (download_video bangTitleEngine { url := "https://e/v" }).toOption.map
        StreamingResp.filename = some ".mp4" :=
  ⟨by decide, by decide, by decide⟩

/-- Claim C3 (amended): the filename's title component keeps exactly the
characters that are alphanumeric or in (space, hyphen, underscore) — every
output character passes the filter, in input order (the output character list
is a sublist of the input) — and trailing whitespace is trimmed (the output
never ends in a whitespace character); the spec's example
`"Clip: Test/2024!"` sanitizes to `"Clip Test2024"`. The literal `"video"`
arises only as the default when the metadata lacks a title (a present title
is sanitized as is, so an empty-after-sanitization title yields the empty
component); the `/download` filename is the component followed by a dot and
the requested format. -/
theorem C3_sanitization_amended :
    (∀ (t : String) (c : Char), c ∈ (sanitize t).data → keepChar c = true)
    ∧ (∀ (t : String), List.Sublist (sanitize t).data t.data)
    ∧ (∀ (t : String) (c : Char),
        (sanitize t).data.getLast? = some c → c.isWhitespace = false)
    ∧ sanitize "Clip: Test/2024!" = "Clip Test2024"
    ∧ title_component none = "video"
    ∧ (∀ t : String, title_component (some t) = sanitize t)
    ∧ (∀ (eng : Engine) (req : DownloadRequest) (info : Info),
        eng.extract_info req.url = .ok info →
        (download_video eng req).toOption.map StreamingResp.filename
          = some (title_component info.title ++ "." ++ req.format)) := by
  refine ⟨?_, ?_, ?_, by decide, by decide, ?_, ?_⟩
  · intro t c hc
    have hm : c ∈ (t.data.filter keepChar) := (rstrip_sublist _).subset hc
    exact (List.mem_filter.mp hm).2
  · intro t
    exact (rstrip_sublist _).trans (List.filter_sublist _)
  · intro t c h
    exact rstrip_last_not_ws _ c h
  · intro t
    rfl
  · intro eng req info h
    simp [download_video, h, Except.toOption]

/-- Witness for C3 (amended): instantiation at concrete inputs. -/
theorem C3_sanitization_amended_witness :
    keepChar 'C' = true
    ∧ (download_video bangTitleEngine { url := "https://e/v" }).toOption.map
        StreamingResp.filename = some (title_component (some "!!!") ++ "." ++ "mp4") :=
  ⟨C3_sanitization_amended.1 "Clip" 'C' (by decide),
   C3_sanitization_amended.2.2.2.2.2.2 bangTitleEngine { url := "https://e/v" }
      { title := some "!!!" } rfl⟩

/-- Claim C6 counterexample: a core failure of the download/transcode step is
not answered with HTTP 500. For an engine whose metadata round trip succeeds
but whose download step raises, the `/download` request produces a successful
`StreamingResponse` (the HTTP 200 has begun) whose generator then terminates
in the failure — the pipeline's outcome is `.ok` with a failed stream, not
the `HttpError` with status 500 the claim requires for every failing input. -/
theorem C6_counterexample :
    (handle_download streamFailEngine { url := "https://e/v" } "/tmp/tmpc6.mp4"
        .readAll []).2
      = .ok ({ media_type := "video/mp4",
               filename := "My Clip.mp4",
               opts := { format_opts := get_format_opts "mp4" "720" } },
             .failed "ERROR: ffmpeg exited with code 1")
    ∧ (handle_download streamFailEngine { url := "https://e/v" } "/tmp/tmpc6.mp4"
        .readAll []).2
      ≠ .error { status := 500, detail := "ERROR: ffmpeg exited with code 1" } :=
  have h1 : (handle_download streamFailEngine { url := "https://e/v" } "/tmp/tmpc6.mp4"
        .readAll []).2
      = .ok ({ media_type := "video/mp4",
               filename := "My Clip.mp4",
               opts := { format_opts := get_format_opts "mp4" "720" } },
             .failed "ERROR: ffmpeg exited with code 1") := rfl
  ⟨h1, fun h => Except.noConfusion (h1.symm.trans h)⟩

/-- Claim C6 (amended): whenever a core failure occurs in the handler body —
before the streaming response is produced — `/info` responds HTTP 400 and
`/download` responds HTTP 500, each carrying the error's message as `detail`;
for `/download` this covers exactly the metadata round-trip failures, the
only fallible step of its body. A failure of the download/transcode step
happens later, inside the response generator, after the HTTP 200 streaming
response has begun: it ends the stream with that error and is never surfaced
as an HTTP status. -/
theorem C6_error_mapping_amended (eng : Engine) :
    (∀ url e, eng.extract_info url = .error e →
        get_video_info eng url = .error { status := 400, detail := e })
    ∧ (∀ (req : DownloadRequest) e, eng.extract_info req.url = .error e →
        download_video eng req = .error { status := 500, detail := e })
    ∧ (∀ (req : DownloadRequest) (tmp_path : String) (consumer : Consumer)
          (disk : List String) (info : Info) (e : String),
        eng.extract_info req.url = .ok info →
        eng.download { format_opts := get_format_opts req.format (pyOr720 req.quality),
                       postprocessor_args := build_postprocessor_args req } req.url
          = .error e →
        ∃ resp, handle_download eng req tmp_path consumer disk
          = (tmp_path :: disk, .ok (resp, .failed e))) := by
  refine ⟨?_, ?_, ?_⟩
  · intro url e h
    simp [get_video_info, h]
  · intro req e h
    simp [download_video, h]
  · intro req tmp_path consumer disk info e h1 h2
    refine ⟨{ media_type := contentType req.format,
              filename := title_component info.title ++ "." ++ req.format,
              opts := { format_opts := get_format_opts req.format (pyOr720 req.quality),
                        postprocessor_args := build_postprocessor_args req } }, ?_⟩
    simp [handle_download, download_video, h1, run_generate, h2]

/-- Witness for C6 (amended): the 400 and 500 mappings at a concretely
failing metadata round trip, and the started-stream failure at a concretely
failing download step. -/
theorem C6_error_mapping_amended_witness :
    get_video_info coreFailEngine "https://e/v"
      = .error { status := 400, detail := "ERROR: video unavailable" }
    ∧ download_video coreFailEngine { url := "https://e/v" }
      = .error { status := 500, detail := "ERROR: video unavailable" }
    ∧ ∃ resp, handle_download streamFailEngine { url := "https://e/v" } "/tmp/tmpc6w.mp4"
          .readAll []
        = (["/tmp/tmpc6w.mp4"], .ok (resp, .failed "ERROR: ffmpeg exited with code 1")) :=
  ⟨(C6_error_mapping_amended coreFailEngine).1 "https://e/v" "ERROR: video unavailable" rfl,
   (C6_error_mapping_amended coreFailEngine).2.1 { url := "https://e/v" }
      "ERROR: video unavailable" rfl,
   (C6_error_mapping_amended streamFailEngine).2.2 { url := "https://e/v" } "/tmp/tmpc6w.mp4"
      .readAll [] { title := some "My Clip" } "ERROR: ffmpeg exited with code 1" rfl rfl⟩

/-- Claim C7: in `/info` output the description equals the first 500
characters of the source description: longer descriptions are cut to exactly
500 characters, descriptions of at most 500 characters are returned
unchanged, and an absent description is surfaced as the empty string, never
fabricated. -/
theorem C7_description_truncation (eng : Engine) (url : String) (info : Info)
    (h : eng.extract_info url = .ok info) :
    ∃ r, get_video_info eng url = .ok r
      ∧ r.data.description = pyTake (info.description.getD "") 500
      ∧ (∀ d, info.description = some d → 500 < d.length →
          r.data.description.length = 500 ∧ r.data.description = pyTake d 500)
      ∧ (∀ d, info.description = some d → d.length ≤ 500 →
          r.data.description = d)
      ∧ (info.description = none → r.data.description = "") := by
  have hgv : get_video_info eng url
      = .ok { success := true,
              data := { title := info.title, thumbnail := info.thumbnail,
                        duration := info.duration, channel := info.uploader,
                        view_count := info.view_count,
                        description := pyTake (info.description.getD "") 500,
                        formats := [{ quality := "360p", ext := "mp4" },
                                    { quality := "480p", ext := "mp4" },
                                    { quality := "720p", ext := "mp4" },
                                    { quality := "1080p", ext := "mp4" }] } } := by
    simp [get_video_info, h]
  refine ⟨_, hgv, rfl, ?_, ?_, ?_⟩
  · intro d hd hlen
    constructor
    · show (pyTake (info.description.getD "") 500).length = 500
      rw [hd]
      show (d.data.take 500).length = 500
      rw [List.length_take]
      have hd2 : 500 < d.data.length := hlen
      omega
    · show pyTake (info.description.getD "") 500 = pyTake d 500
      rw [hd]
      rfl
  · intro d hd hlen
    show pyTake (info.description.getD "") 500 = d
    rw [hd]
    show String.mk (d.data.take 500) = d
    rw [List.take_of_length_le (by exact hlen : d.data.length ≤ 500)]
  · intro hd
    show pyTake (info.description.getD "") 500 = ""
    rw [hd]
    rfl

/-- Witness for C7: a 1000-character description comes back with exactly 500
characters. -/
theorem C7_description_truncation_witness :
    ∃ r, get_video_info descEngine "https://e/v" = .ok r
      ∧ r.data.description.length = 500 := by
  obtain ⟨r, h1, _, h3, _, _⟩ :=
    C7_description_truncation descEngine "https://e/v" longDescInfo rfl
  have hlen : 500 < longDesc.length := by
    show 500 < (List.replicate 1000 'a').length
    rw [List.length_replicate]
    omega
  exact ⟨r, h1, (h3 longDesc rfl hlen).1⟩

/-- Claim C10: in the `/download` handler the metadata round-trip
(src/main.py:135-139) runs before the `generate` body — the only code that
allocates the transient file — ever executes; when metadata extraction fails,
the handler raises (surfaced as HTTP 500 with the error's message) and the
disk is exactly as before: no transient file was created, so there is
nothing to clean up on that path. -/
theorem C10_meta_failure_no_transient (eng : Engine) (req : DownloadRequest)
    (tmp_path : String) (consumer : Consumer) (disk : List String) (e : String)
    (h : eng.extract_info req.url = .error e) :
    handle_download eng req tmp_path consumer disk
      = (disk, .error { status := 500, detail := e }) := by
  simp [handle_download, download_video, h]

/-- Witness for C10 with an engine whose metadata extraction always fails. -/
theorem C10_meta_failure_no_transient_witness :
    handle_download coreFailEngine { url := "https://bad" } "/tmp/tmpw.mp4"
        .readAll ["/srv/other.bin"]
      = (["/srv/other.bin"],
         .error { status := 500, detail := "ERROR: video unavailable" }) :=
  C10_meta_failure_no_transient coreFailEngine { url := "https://bad" }
    "/tmp/tmpw.mp4" .readAll ["/srv/other.bin"] "ERROR: video unavailable" rfl

/-- Claim C1 is violated by the code: after a failed download/transcode step
the transient file remains on disk while the error propagates (the
`except Exception as e: raise e` clause re-raises without unlinking), and a
consumer that closes the stream mid-read also leaves the file behind (the
unlink sits below the read loop and is skipped on `GeneratorExit`). This
theorem evaluates the pipeline at both failing inputs: the transient path is
still present afterwards. -/
theorem C1_transient_leak :
    (handle_download transcodeFailEngine { url := "https://e/v" } "/tmp/tmp8f3k.mp4"
        .readAll []).1 = ["/tmp/tmp8f3k.mp4"]
    ∧ (handle_download transcodeFailEngine { url := "https://e/v" } "/tmp/tmp8f3k.mp4"
        .readAll []).2
      = .ok ({ media_type := "video/mp4",
               filename := "My Clip.mp4",
               opts := { format_opts := get_format_opts "mp4" "720" } },
             .failed "ERROR: Postprocessing: ffmpeg exited with code 1")
    ∧ (handle_download disconnectEngine { url := "https://e/v" } "/tmp/tmp9q1z.mp4"
        (.stopAfter 0) []).1 = ["/tmp/tmp9q1z.mp4"] :=
  ⟨by decide, by rfl, by decide⟩

end M7X
